import Mathlib

/-!
Verification of the semantic-property search-and-link component of the
data-governance frontend (src/frontend/src/components/search/properties-search.tsx).

The component is shallowly embedded: the React state is a record, every
handler of the source file is a pure state transformer, and the backend
endpoints consumed over HTTP are oracles passed in as functions (a field
per endpoint).  The JavaScript string builtins used by the source
(String.prototype.split with a single-character or character-class
separator, String.prototype.trim, URLSearchParams form encoding) are
re-implemented structurally over lists of characters so that every
definition reduces inside the kernel.
-/

namespace PropertiesSearch

/-- JS semantics of s.split with a character class: split at every
matching character, keeping empty segments, never returning an empty
list. -/
def splitAnyAux (p : Char → Bool) : List Char → List Char → List String
  | [], acc => [String.mk acc.reverse]
  | c :: rest, acc =>
      if p c then String.mk acc.reverse :: splitAnyAux p rest []
      else splitAnyAux p rest (c :: acc)

/-- JS s.split on a character class, e.g. the regex class of slash and
hash used by the deep-link label fallback. -/
def splitAny (p : Char → Bool) (s : String) : List String :=
  splitAnyAux p s.data []

/-- JS s.split with a one-character separator string. -/
def splitOnChar (sep : Char) (s : String) : List String :=
  splitAny (fun c => c = sep) s

/-- JS s.trim: drop whitespace from both ends. -/
def jsTrim (s : String) : String :=
  String.mk (((s.data.dropWhile Char.isWhitespace).reverse.dropWhile Char.isWhitespace).reverse)

/-- JS s.includes with a one-character needle. -/
def jsIncludes (s : String) (c : Char) : Bool :=
  s.data.any (fun x => x = c)

/-- JS a or-else b for strings: the empty string is falsy and falls
through to the right operand. -/
def jsOr (a b : String) : String :=
  if a = "" then b else a

/-- Uppercase hexadecimal digit of a value below 16. -/
def hexDigit (n : Nat) : Char :=
  if n < 10 then Char.ofNat (48 + n) else Char.ofNat (55 + n)

/-- UTF-8 bytes of a character, as natural numbers below 256. -/
def utf8Bytes (c : Char) : List Nat :=
  let n := c.toNat
  if n < 128 then [n]
  else if n < 2048 then [192 + n / 64, 128 + n % 64]
  else if n < 65536 then [224 + n / 4096, 128 + (n / 64) % 64, 128 + n % 64]
  else [240 + n / 262144, 128 + (n / 4096) % 64, 128 + (n / 64) % 64, 128 + n % 64]

/-- Percent-escape of one byte, uppercase hex. -/
def encodeByte (b : Nat) : String :=
  String.mk ['%', hexDigit (b / 16), hexDigit (b % 16)]

/-- Characters URLSearchParams serialisation keeps verbatim. -/
def isFormSafe (c : Char) : Bool :=
  c.isAlphanum || c = '*' || c = '-' || c = '.' || c = '_'

/-- application/x-www-form-urlencoded encoding of one character: safe
characters kept, space becomes plus, everything else percent-escaped
per UTF-8 byte. -/
def encodeFormChar (c : Char) : String :=
  if isFormSafe c then String.mk [c]
  else if c = ' ' then "+"
  else String.join ((utf8Bytes c).map encodeByte)

/-- application/x-www-form-urlencoded encoding of a string, as performed
by URLSearchParams.toString. -/
def formEncode (s : String) : String :=
  String.join (s.data.map encodeFormChar)

/-- Join a list of strings with a separator (structurally recursive). -/
def joinSep (sep : String) : List String → String
  | [] => ""
  | [x] => x
  | x :: y :: rest => x ++ sep ++ joinSep sep (y :: rest)

/-! ## Data model (types of properties-search.tsx) -/

/-- A search hit from the semantic-model property index
(type PropertyItem in the source). -/
structure PropertyItem where
  value : String
  label : String
  type : String
deriving Repr, DecidableEq

/-- A neighbor fact of a property in the ontology graph
(type Neighbor in the source). -/
structure Neighbor where
  direction : String
  predicate : String
  display : String
  displayType : String
  stepIri : Option String
  stepIsResource : Option Bool
deriving Repr, DecidableEq

/-- A persisted semantic link (type SemanticLink in the source). -/
structure SemanticLink where
  id : String
  entity_id : String
  entity_type : String
  iri : String
deriving Repr, DecidableEq

/-- A semantic link decorated with a human-readable entity name
(type EnrichedSemanticLink in the source). -/
structure EnrichedSemanticLink extends SemanticLink where
  entity_name : Option String
deriving Repr, DecidableEq

/-- One property row of a schema object of a contract detail. -/
structure SchemaProperty where
  name : String
deriving Repr, DecidableEq

/-- One schema object of a contract detail response. -/
structure SchemaObject where
  name : Option String
  physical_name : Option String
  properties : List SchemaProperty
deriving Repr, DecidableEq

/-- Contract payload as read by this component: top-level name,
info.title, and the schema objects (absent fields are none). -/
structure ContractDetail where
  name : Option String
  infoTitle : Option String
  schema_objects : List SchemaObject
deriving Repr, DecidableEq

/-- A contract summary row of the contract list endpoint. -/
structure ContractSummary where
  id : String
  name : Option String
  infoTitle : Option String
deriving Repr, DecidableEq

/-- The two URL parameters owned by the flow.  A parameter is none when
absent from the URL; component navigation never writes an empty value
(truthiness guards in updateUrl). -/
structure UrlParams where
  query : Option String
  iri : Option String
deriving Repr, DecidableEq

/-- Argument of updateUrl: a partial record, none meaning the field was
omitted from the update object. -/
structure UrlUpdates where
  query : Option String
  iri : Option String
deriving Repr, DecidableEq

/-- Body of the create-link POST. -/
structure LinkPayload where
  entity_id : String
  entity_type : String
  iri : String
deriving Repr, DecidableEq

/-- A toast notification (title and description are i18n keys or server
messages; variant is destructive for errors). -/
structure Toast where
  title : String
  variant : String
  description : String
deriving Repr, DecidableEq

/-- Backend endpoints consumed by the component, as oracles.  A search
oracle takes the query text and the limit.  Failures are the error
side of Except; for the POST the error carries the surfaced message. -/
structure Api where
  searchProperties : String → Nat → Except Unit (List PropertyItem)
  getNeighbors : String → Except Unit (List Neighbor)
  getLinksByIri : String → Except Unit (List SemanticLink)
  getContract : String → Except Unit ContractDetail
  postSemanticLink : LinkPayload → Except String Unit

/-- The useState fields of the component plus the browser URL it
navigates. -/
structure ComponentState where
  propertySearchQuery : String
  propertySearchResults : List PropertyItem
  isPropertyDropdownOpen : Bool
  selectedProperty : Option PropertyItem
  propertyIri : String
  propertyLabel : String
  propertyNeighbors : List Neighbor
  semanticLinks : List EnrichedSemanticLink
  assignDialogOpen : Bool
  assignTargetType : String
  contracts : List ContractSummary
  selectedContractId : String
  selectedSchemaName : String
  selectedPropertyEntityId : String
  selectedContractDetail : Option ContractDetail
  ucAssetDialogOpen : Bool
  url : UrlParams
deriving Repr, DecidableEq

/-- Initial state of the component when mounted with empty props. -/
def initialState : ComponentState where
  propertySearchQuery := ""
  propertySearchResults := []
  isPropertyDropdownOpen := false
  selectedProperty := none
  propertyIri := ""
  propertyLabel := ""
  propertyNeighbors := []
  semanticLinks := []
  assignDialogOpen := false
  assignTargetType := ""
  contracts := []
  selectedContractId := ""
  selectedSchemaName := ""
  selectedPropertyEntityId := ""
  selectedContractDetail := none
  ucAssetDialogOpen := false
  url := ⟨none, none⟩

/-! ## URL state synchronizer -/

/-- updateUrl of the source: merge the partial update with the current
URL parameters (an omitted field keeps the current value read from the
URL, empty or absent reading as the empty string), then keep only
truthy values as parameters.  The resulting UrlParams is what the
fresh URLSearchParams object holds after the two conditional set
calls. -/
def updateUrl (current : UrlParams) (updates : UrlUpdates) : UrlParams :=
  let currentQuery := match updates.query with
    | some q => q
    | none => current.query.getD ""
  let currentIri := match updates.iri with
    | some i => i
    | none => current.iri.getD ""
  { query := if currentQuery = "" then none else some currentQuery
    iri := if currentIri = "" then none else some currentIri }

/-- URLSearchParams.toString of the parameter object built by updateUrl:
query is set first, then iri, each form-encoded. -/
def paramsToString (p : UrlParams) : String :=
  joinSep "&"
    ((match p.query with
      | some q => ["query=" ++ formEncode q]
      | none => []) ++
     (match p.iri with
      | some i => ["iri=" ++ formEncode i]
      | none => []))

/-- The navigation target of updateUrl: the bare path when the encoded
query string is empty, else the path with the query string. -/
def navTarget (p : UrlParams) : String :=
  let queryString := paramsToString p
  if queryString = "" then "/search/properties"
  else "/search/properties?" ++ queryString

/-- Apply updateUrl to the URL stored in the component state. -/
def applyUpdateUrl (s : ComponentState) (u : UrlUpdates) : ComponentState :=
  { s with url := updateUrl s.url u }

/-! ## Debounced search -/

/-- Body of the debounced search effect (searchProperties in the
source).  Returns the new state and whether a search request was
issued.  A blank query clears results, closes the dropdown and clears
the query parameter without a request; otherwise the index is queried
with limit 50; a failure resets results and closes the dropdown
without touching the URL. -/
def searchProperties (api : Api) (s : ComponentState) : ComponentState × Bool :=
  if jsTrim s.propertySearchQuery = "" then
    (applyUpdateUrl
      { s with propertySearchResults := [], isPropertyDropdownOpen := false }
      ⟨some "", none⟩, false)
  else
    match api.searchProperties s.propertySearchQuery 50 with
    | .ok data =>
        (applyUpdateUrl
          { s with propertySearchResults := data
                   isPropertyDropdownOpen := decide (0 < data.length) }
          ⟨some s.propertySearchQuery, none⟩, true)
    | .error _ =>
        ({ s with propertySearchResults := [], isPropertyDropdownOpen := false }, true)

/-! ## Property resolver -/

/-- Display label derivation of selectProperty: the own label unless it
is empty or trims to the raw value, in which case the last segment
after a hash (when the value has one) or after a slash is used. -/
def displayLabelOf (p : PropertyItem) : String :=
  if p.label = "" ∨ jsTrim p.label = p.value then
    if jsIncludes p.value '#' then (splitOnChar '#' p.value).getLastD p.value
    else jsOr ((splitOnChar '/' p.value).getLastD "") p.value
  else p.label

/-- The synchronous prefix of selectProperty: everything that happens
before the first await, i.e. before either fetch resolves.  Sets the
selection, the IRI, the display label, rewrites the search box, closes
the dropdown and updates the URL iri parameter. -/
def selectPropertySync (s : ComponentState) (p : PropertyItem) : ComponentState :=
  let displayLabel := displayLabelOf p
  applyUpdateUrl
    { s with selectedProperty := some p
             propertyIri := p.value
             propertyLabel := displayLabel
             propertySearchQuery := displayLabel ++ " - " ++ p.value
             isPropertyDropdownOpen := false }
    ⟨none, some p.value⟩

/-- Resolution of the neighbors fetch of selectProperty: neighbors are
replaced by the response, or reset to empty on failure. -/
def selectPropertyNeighbors (api : Api) (p : PropertyItem) (s : ComponentState) : ComponentState :=
  match api.getNeighbors p.value with
  | .ok data => { s with propertyNeighbors := data }
  | .error _ => { s with propertyNeighbors := [] }

/-- JS title resolution for a fetched contract: top-level name, else
info.title, else the given fallback (empty strings are falsy). -/
def contractDisplayTitle (c : ContractDetail) (fallback : String) : String :=
  jsOr (c.name.getD "") (jsOr (c.infoTitle.getD "") fallback)

/-- Enrichment of one semantic link (one iteration of the loop of
enrichSemanticLinksWithNames).  The per-iteration try/catch folds into
a total function over the contract oracle. -/
def enrichOne (getContract : String → Except Unit ContractDetail)
    (link : SemanticLink) : EnrichedSemanticLink :=
  if link.entity_type = "data_contract_property" then
    if (splitOnChar '#' link.entity_id).headD "" = "" then ⟨link, some link.entity_id⟩
    else
      match getContract ((splitOnChar '#' link.entity_id).headD "") with
      | .ok c =>
          ⟨link, some (jsTrim (contractDisplayTitle c
            ((splitOnChar '#' link.entity_id).headD "") ++ "#" ++
            (splitOnChar '#' link.entity_id).getD 1 "" ++ "." ++
            (splitOnChar '#' link.entity_id).getD 2 ""))⟩
      | .error _ => ⟨link, some link.entity_id⟩
  else if link.entity_type = "uc_column" then ⟨link, some link.entity_id⟩
  else if link.entity_type = "data_contract" then
    match getContract link.entity_id with
    | .ok c => ⟨link, some (contractDisplayTitle c link.entity_id)⟩
    | .error _ => ⟨link, some link.entity_id⟩
  else ⟨link, some link.entity_id⟩

/-- enrichSemanticLinksWithNames of the source: sequential, one link at
a time, in order; each iteration appends exactly one enriched link. -/
def enrichSemanticLinksWithNames (getContract : String → Except Unit ContractDetail)
    (links : List SemanticLink) : List EnrichedSemanticLink :=
  links.map (enrichOne getContract)

/-- Resolution of the links fetch of selectProperty: links are fetched
by IRI and enriched, or reset to empty when the fetch fails. -/
def selectPropertyLinks (api : Api) (p : PropertyItem) (s : ComponentState) : ComponentState :=
  match api.getLinksByIri p.value with
  | .ok links => { s with semanticLinks := enrichSemanticLinksWithNames api.getContract links }
  | .error _ => { s with semanticLinks := [] }

/-- selectProperty run to completion in program order: synchronous
prefix, then the neighbors fetch resolves, then the links fetch
resolves. -/
def selectProperty (api : Api) (s : ComponentState) (p : PropertyItem) : ComponentState :=
  selectPropertyLinks api p (selectPropertyNeighbors api p (selectPropertySync s p))

/-! ## Clearing and deep-link loading -/

/-- clearSearch of the source. -/
def clearSearch (s : ComponentState) : ComponentState :=
  applyUpdateUrl
    { s with propertySearchQuery := ""
             selectedProperty := none
             propertyIri := ""
             propertyLabel := ""
             propertyNeighbors := []
             semanticLinks := []
             isPropertyDropdownOpen := false }
    ⟨some "", some ""⟩

/-- Last path or fragment segment of an IRI, falling back to the whole
IRI when the last segment is empty (split on slash or hash, pop, or
else the IRI itself). -/
def lastSegment (iri : String) : String :=
  jsOr ((splitAny (fun c => c = '/' || c = '#') iri).getLastD "") iri

/-- loadPropertyFromIri of the URL-change effect: search the index with
limit 10, pick the hit whose value equals the IRI exactly, else build
the synthetic fallback item; a search failure selects nothing. -/
def loadPropertyFromIri (search : String → Nat → Except Unit (List PropertyItem))
    (urlIri : String) : Option PropertyItem :=
  match search urlIri 10 with
  | .ok res =>
      match res.find? (fun p => p.value == urlIri) with
      | some m => some m
      | none => some ⟨urlIri, lastSegment urlIri, "property"⟩
  | .error _ => none

/-- The URL-change effect: adopt a query parameter differing from the
initial query, and resolve a present iri parameter to a selected
property. -/
def urlChangeStep (api : Api) (initialQuery : String) (s : ComponentState) : ComponentState :=
  let urlQuery := s.url.query.getD ""
  let s1 :=
    if urlQuery ≠ "" ∧ urlQuery ≠ initialQuery then
      { s with propertySearchQuery := urlQuery }
    else s
  let urlIri := s.url.iri.getD ""
  if urlIri ≠ "" then
    match loadPropertyFromIri api.searchProperties urlIri with
    | some p => selectProperty api s1 p
    | none => s1
  else s1

/-! ## Link assignment cascade -/

/-- handleAssignTargetTypeChange of the source: set the target type and
clear every downstream selection. -/
def handleAssignTargetTypeChange (s : ComponentState) (v : String) : ComponentState :=
  { s with assignTargetType := v
           selectedContractId := ""
           selectedSchemaName := ""
           selectedPropertyEntityId := "" }

/-- The onValueChange handler of the contract dropdown: set the
contract and clear schema and property selections. -/
def onContractChange (s : ComponentState) (v : String) : ComponentState :=
  { s with selectedContractId := v
           selectedSchemaName := ""
           selectedPropertyEntityId := "" }

/-- The onValueChange handler of the schema dropdown: set the schema
and clear the property selection. -/
def onSchemaChange (s : ComponentState) (v : String) : ComponentState :=
  { s with selectedSchemaName := v
           selectedPropertyEntityId := "" }

/-- The onValueChange handler of the property dropdown. -/
def onPropertyChange (s : ComponentState) (v : String) : ComponentState :=
  { s with selectedPropertyEntityId := v }

/-- handleAssign of the source.  Returns the new state, the POST body
when a create-link request was issued, and the toasts raised.  The
contract-property path refuses an empty property entity id with an
error toast; on success the dialog closes, the cascade resets and the
selected property is re-selected; on failure only a toast is raised. -/
def handleAssign (api : Api) (s : ComponentState) :
    ComponentState × Option LinkPayload × List Toast :=
  match s.selectedProperty with
  | none => (s, none, [])
  | some sp =>
    if s.assignTargetType = "" then (s, none, [])
    else if s.assignTargetType = "data_contract_property" then
      if s.selectedPropertyEntityId = "" then
        (s, none,
         [⟨"common:toast.error", "destructive",
           "search:properties.messages.selectPropertyTarget"⟩])
      else
        let payload : LinkPayload :=
          ⟨s.selectedPropertyEntityId, s.assignTargetType, sp.value⟩
        match api.postSemanticLink payload with
        | .ok _ =>
            let s1 := { s with assignDialogOpen := false
                               assignTargetType := ""
                               selectedContractId := ""
                               selectedSchemaName := ""
                               selectedPropertyEntityId := "" }
            (selectProperty api s1 sp, some payload,
             [⟨"common:toast.success", "success",
               "search:properties.messages.linkedSuccess"⟩])
        | .error msg =>
            (s, some payload,
             [⟨"common:toast.error", "destructive",
               jsOr msg "search:properties.messages.assignFailed"⟩])
    else (s, none, [])

/-! ## Helper lemmas -/

theorem append_ne_empty_of_left (a b : String) (ha : a.length ≠ 0) : a ++ b ≠ "" := by
  intro e
  have h := congrArg String.length e
  rw [String.length_append] at h
  simp at h
  exact ha h.1

theorem paramsToString_ne_empty (p : UrlParams)
    (h : p.query ≠ none ∨ p.iri ≠ none) : paramsToString p ≠ "" := by
  cases hq : p.query with
  | some q =>
      cases hi : p.iri with
      | some i =>
          have ha : (("query=" ++ formEncode q) ++ "&").length ≠ 0 := by
            rw [String.length_append]
            have h1 : ("&" : String).length = 1 := by decide
            omega
          simpa [paramsToString, hq, hi, joinSep] using
            append_ne_empty_of_left (("query=" ++ formEncode q) ++ "&")
              ("iri=" ++ formEncode i) ha
      | none =>
          simpa [paramsToString, hq, hi, joinSep] using
            append_ne_empty_of_left "query=" (formEncode q) (by decide)
  | none =>
      cases hi : p.iri with
      | some i =>
          simpa [paramsToString, hq, hi, joinSep] using
            append_ne_empty_of_left "iri=" (formEncode i) (by decide)
      | none => simp [hq, hi] at h

/-! ## Claims -/

/-- Claim C1: updateUrl merges the partial update with the current URL
parameters: an omitted field keeps the prior value of the parameter, a
field given as the empty string removes the parameter, and the
navigation target is the path with the encoded query string when at
least one parameter survives and the bare path when both are empty. -/
theorem C1_updateUrl_merge (cur : UrlParams) (upd : UrlUpdates)
    (hq : cur.query ≠ some "") (hi : cur.iri ≠ some "") :
    (upd.query = none → (updateUrl cur upd).query = cur.query)
    ∧ (upd.iri = none → (updateUrl cur upd).iri = cur.iri)
    ∧ (upd.query = some "" → (updateUrl cur upd).query = none)
    ∧ (upd.iri = some "" → (updateUrl cur upd).iri = none)
    ∧ ((updateUrl cur upd).query = none ∧ (updateUrl cur upd).iri = none →
        navTarget (updateUrl cur upd) = "/search/properties")
    ∧ ((updateUrl cur upd).query ≠ none ∨ (updateUrl cur upd).iri ≠ none →
        navTarget (updateUrl cur upd) =
          "/search/properties?" ++ paramsToString (updateUrl cur upd)) := by
  refine ⟨?_, ?_, ?_, ?_, ?_, ?_⟩
  · intro h
    cases hcq : cur.query with
    | none => simp [updateUrl, h, hcq]
    | some v =>
        have hv : v ≠ "" := fun e => hq (by rw [hcq, e])
        simp [updateUrl, h, hcq, hv]
  · intro h
    cases hci : cur.iri with
    | none => simp [updateUrl, h, hci]
    | some v =>
        have hv : v ≠ "" := fun e => hi (by rw [hci, e])
        simp [updateUrl, h, hci, hv]
  · intro h
    simp [updateUrl, h]
  · intro h
    simp [updateUrl, h]
  · intro h
    simp [navTarget, paramsToString, h.1, h.2, joinSep]
  · intro h
    have hne := paramsToString_ne_empty (updateUrl cur upd) h
    simp [navTarget, hne]

/-- Witness for C1: a concrete current URL and update, with the merged
parameters and the navigation target checked. -/
theorem C1_updateUrl_merge_witness :
    ((⟨some "abc", some "x y"⟩ : UrlParams).query ≠ some "")
    ∧ ((⟨some "abc", some "x y"⟩ : UrlParams).iri ≠ some "")
    ∧ (updateUrl ⟨some "abc", some "x y"⟩ ⟨none, some ""⟩).query = some "abc"
    ∧ (updateUrl ⟨some "abc", some "x y"⟩ ⟨none, some ""⟩).iri = none
    ∧ navTarget (updateUrl ⟨some "abc", some "x y"⟩ ⟨none, some ""⟩) =
        "/search/properties?" ++
          paramsToString (updateUrl ⟨some "abc", some "x y"⟩ ⟨none, some ""⟩) :=
  ⟨by decide, by decide,
   (C1_updateUrl_merge ⟨some "abc", some "x y"⟩ ⟨none, some ""⟩
     (by decide) (by decide)).1 rfl,
   (C1_updateUrl_merge ⟨some "abc", some "x y"⟩ ⟨none, some ""⟩
     (by decide) (by decide)).2.2.2.1 rfl,
   (C1_updateUrl_merge ⟨some "abc", some "x y"⟩ ⟨none, some ""⟩
     (by decide) (by decide)).2.2.2.2.2 (Or.inl (by decide))⟩

theorem append_hash_orders_total (t : String) :
    t ++ "#" ++ "orders" ++ "." ++ "total" = t ++ "#orders.total" := by
  simp only [String.append_assoc]
  exact congrArg (String.append t) (by decide)

/-- Claim C2: enrichSemanticLinksWithNames preserves length and order,
each output element is the input link plus an entity name, and the
name is computed per type: for data_contract_property the entity id is
split on hash into contract id, schema and property, the contract is
fetched and the name is title, hash, schema, dot, property (absent
parts read as empty); for data_contract the name is the fetched title;
for uc_column and unrecognized types the name is the raw entity id; a
fetch failure for a link falls back to the raw entity id.  In
particular the link c1 hash orders hash total is named title of c1
followed by hash orders dot total, and falls back to the raw id when
the fetch fails. -/
theorem C2_enrichSemanticLinks (gc : String → Except Unit ContractDetail)
    (links : List SemanticLink) (i : Nat) (l : SemanticLink) (c : ContractDetail) :
    (enrichSemanticLinksWithNames gc links).length = links.length
    ∧ (enrichSemanticLinksWithNames gc links)[i]? = (links[i]?).map (enrichOne gc)
    ∧ (enrichOne gc l).toSemanticLink = l
    ∧ (l.entity_type = "data_contract_property" →
        (splitOnChar '#' l.entity_id).headD "" ≠ "" →
        ((gc ((splitOnChar '#' l.entity_id).headD "") = .ok c →
           (enrichOne gc l).entity_name =
             some (jsTrim (contractDisplayTitle c ((splitOnChar '#' l.entity_id).headD "") ++
               "#" ++ (splitOnChar '#' l.entity_id).getD 1 "" ++ "." ++
               (splitOnChar '#' l.entity_id).getD 2 "")))
         ∧ (gc ((splitOnChar '#' l.entity_id).headD "") = .error () →
           (enrichOne gc l).entity_name = some l.entity_id)))
    ∧ (l.entity_type = "data_contract" →
        ((gc l.entity_id = .ok c →
           (enrichOne gc l).entity_name = some (contractDisplayTitle c l.entity_id))
         ∧ (gc l.entity_id = .error () →
           (enrichOne gc l).entity_name = some l.entity_id)))
    ∧ (l.entity_type = "uc_column" → (enrichOne gc l).entity_name = some l.entity_id)
    ∧ (l.entity_type ≠ "data_contract_property" → l.entity_type ≠ "uc_column" →
        l.entity_type ≠ "data_contract" →
        (enrichOne gc l).entity_name = some l.entity_id)
    ∧ (l.entity_type = "data_contract_property" → l.entity_id = "c1#orders#total" →
        ((gc "c1" = .ok c →
           (enrichOne gc l).entity_name =
             some (jsTrim (contractDisplayTitle c "c1" ++ "#orders.total")))
         ∧ (gc "c1" = .error () →
           (enrichOne gc l).entity_name = some "c1#orders#total"))) := by
  have h4 : l.entity_type = "data_contract_property" →
      (splitOnChar '#' l.entity_id).headD "" ≠ "" →
      ((gc ((splitOnChar '#' l.entity_id).headD "") = .ok c →
         (enrichOne gc l).entity_name =
           some (jsTrim (contractDisplayTitle c ((splitOnChar '#' l.entity_id).headD "") ++
             "#" ++ (splitOnChar '#' l.entity_id).getD 1 "" ++ "." ++
             (splitOnChar '#' l.entity_id).getD 2 "")))
       ∧ (gc ((splitOnChar '#' l.entity_id).headD "") = .error () →
         (enrichOne gc l).entity_name = some l.entity_id)) := by
    intro h1 hne
    rw [List.headD_eq_head?] at hne
    constructor <;> intro hg <;> rw [List.headD_eq_head?] at hg <;>
      simp [enrichOne, h1, hne, hg]
  refine ⟨by simp [enrichSemanticLinksWithNames],
          by simp [enrichSemanticLinksWithNames],
          ?_, h4, ?_, ?_, ?_, ?_⟩
  · unfold enrichOne
    repeat' split
    all_goals rfl
  · intro h1
    constructor <;> intro hg <;> simp [enrichOne, h1, hg]
  · intro h1
    simp [enrichOne, h1]
  · intro h1 h2 h3
    simp [enrichOne, h1, h2, h3]
  · intro h1 h2
    have e1 : (splitOnChar '#' l.entity_id).headD "" = "c1" := by rw [h2]; decide
    have e2 : (splitOnChar '#' l.entity_id).getD 1 "" = "orders" := by rw [h2]; decide
    have e3 : (splitOnChar '#' l.entity_id).getD 2 "" = "total" := by rw [h2]; decide
    constructor
    · intro hg
      have hmain := (h4 h1 (by rw [e1]; decide)).1 (by rw [e1]; exact hg)
      rw [e1, e2, e3, append_hash_orders_total] at hmain
      exact hmain
    · intro hg
      have hmain := (h4 h1 (by rw [e1]; decide)).2 (by rw [e1]; exact hg)
      rw [h2] at hmain
      exact hmain

/-- Fixture contract oracle: only the contract c1 exists. -/
def gcFix : String → Except Unit ContractDetail :=
  fun cid => if cid = "c1" then .ok ⟨some "Contract One", none, []⟩ else .error ()

/-- Fixture link targeting a contract property. -/
def linkFix : SemanticLink :=
  ⟨"lk1", "c1#orders#total", "data_contract_property", "https://ex.org/onto#total"⟩

/-- Witness for C2: the fixture link is enriched to the contract title
followed by the schema and property, and the batch keeps its length. -/
theorem C2_enrichSemanticLinks_witness :
    linkFix.entity_type = "data_contract_property"
    ∧ linkFix.entity_id = "c1#orders#total"
    ∧ gcFix "c1" = .ok ⟨some "Contract One", none, []⟩
    ∧ (enrichOne gcFix linkFix).entity_name = some "Contract One#orders.total"
    ∧ (enrichSemanticLinksWithNames gcFix [linkFix]).length = 1 := by
  refine ⟨rfl, rfl, rfl, ?_, ?_⟩
  · have h := (C2_enrichSemanticLinks gcFix [linkFix] 0 linkFix
      ⟨some "Contract One", none, []⟩).2.2.2.2.2.2.2 rfl rfl
    exact (h.1 rfl).trans (by decide)
  · exact (C2_enrichSemanticLinks gcFix [linkFix] 0 linkFix
      ⟨some "Contract One", none, []⟩).1.trans rfl

theorem selectProperty_selectedProperty (api : Api) (s : ComponentState) (p : PropertyItem) :
    (selectProperty api s p).selectedProperty = some p := by
  unfold selectProperty selectPropertyLinks selectPropertyNeighbors
  cases hn : api.getNeighbors p.value <;> cases hl : api.getLinksByIri p.value <;>
    simp [selectPropertySync, applyUpdateUrl]

theorem selectProperty_propertyNeighbors (api : Api) (s : ComponentState) (p : PropertyItem) :
    (selectProperty api s p).propertyNeighbors =
      (match api.getNeighbors p.value with
       | .ok data => data
       | .error _ => []) := by
  unfold selectProperty selectPropertyLinks selectPropertyNeighbors
  cases hn : api.getNeighbors p.value <;> cases hl : api.getLinksByIri p.value <;>
    simp [selectPropertySync, applyUpdateUrl]

theorem selectProperty_semanticLinks (api : Api) (s : ComponentState) (p : PropertyItem) :
    (selectProperty api s p).semanticLinks =
      (match api.getLinksByIri p.value with
       | .ok links => enrichSemanticLinksWithNames api.getContract links
       | .error _ => []) := by
  unfold selectProperty selectPropertyLinks selectPropertyNeighbors
  cases hn : api.getNeighbors p.value <;> cases hl : api.getLinksByIri p.value <;>
    simp [selectPropertySync, applyUpdateUrl]

/-- Claim C3: round-trip between selection and the URL.  Selecting a
property writes its value as the iri parameter, and loading a URL
whose iri parameter is present resolves back to a selected property
whose value equals that iri: the exact search hit when one of the
first ten results matches, else a synthetic fallback whose label is
the last path or fragment segment of the IRI. -/
theorem C3_url_roundtrip (api : Api) (s : ComponentState) (p : PropertyItem)
    (iq iri : String) (res : List PropertyItem)
    (hp : p.value ≠ "") (hiri : iri ≠ "") (hurl : s.url.iri = some iri)
    (hres : api.searchProperties iri 10 = .ok res) :
    (selectPropertySync s p).url.iri = some p.value
    ∧ (urlChangeStep api iq s).selectedProperty = loadPropertyFromIri api.searchProperties iri
    ∧ (loadPropertyFromIri api.searchProperties iri).map PropertyItem.value = some iri
    ∧ (match res.find? (fun x => x.value == iri) with
       | some m => loadPropertyFromIri api.searchProperties iri = some m
       | none =>
           loadPropertyFromIri api.searchProperties iri =
             some ⟨iri, lastSegment iri, "property"⟩) := by
  have hchar : (match res.find? (fun x => x.value == iri) with
       | some m => loadPropertyFromIri api.searchProperties iri = some m
       | none =>
           loadPropertyFromIri api.searchProperties iri =
             some ⟨iri, lastSegment iri, "property"⟩) := by
    unfold loadPropertyFromIri
    rw [hres]
    cases hf : res.find? (fun x => x.value == iri) <;> simp [hf]
  refine ⟨?_, ?_, ?_, hchar⟩
  · simp [selectPropertySync, applyUpdateUrl, updateUrl, hp]
  · cases hf : res.find? (fun x => x.value == iri) with
    | some m =>
        rw [hf] at hchar
        simp [urlChangeStep, hurl, hiri, hchar, selectProperty_selectedProperty]
    | none =>
        rw [hf] at hchar
        simp [urlChangeStep, hurl, hiri, hchar, selectProperty_selectedProperty]
  · cases hf : res.find? (fun x => x.value == iri) with
    | some m =>
        rw [hf] at hchar
        rw [hchar]
        have hm := List.find?_some hf
        simpa using hm
    | none =>
        rw [hf] at hchar
        rw [hchar]
        rfl

/-- Fixture search oracle for the round trip: searching for the IRI
returns one exact hit. -/
def apiRoundtrip : Api where
  searchProperties := fun _ _ =>
    .ok [⟨"https://ex.org/onto#CustomerId", "CustomerId", "property"⟩]
  getNeighbors := fun _ => .ok []
  getLinksByIri := fun _ => .ok []
  getContract := fun _ => .error ()
  postSemanticLink := fun _ => .ok ()

/-- Witness for C3 at a concrete property, URL and search oracle. -/
theorem C3_url_roundtrip_witness :
    (selectPropertySync
        { initialState with url := ⟨none, some "https://ex.org/onto#CustomerId"⟩ }
        ⟨"https://ex.org/onto#CustomerId", "CustomerId", "property"⟩).url.iri =
      some "https://ex.org/onto#CustomerId"
    ∧ (urlChangeStep apiRoundtrip ""
        { initialState with url := ⟨none, some "https://ex.org/onto#CustomerId"⟩ }).selectedProperty =
      loadPropertyFromIri apiRoundtrip.searchProperties "https://ex.org/onto#CustomerId"
    ∧ (loadPropertyFromIri apiRoundtrip.searchProperties
        "https://ex.org/onto#CustomerId").map PropertyItem.value =
      some "https://ex.org/onto#CustomerId" := by
  have h := C3_url_roundtrip apiRoundtrip
    { initialState with url := ⟨none, some "https://ex.org/onto#CustomerId"⟩ }
    ⟨"https://ex.org/onto#CustomerId", "CustomerId", "property"⟩
    "" "https://ex.org/onto#CustomerId"
    [⟨"https://ex.org/onto#CustomerId", "CustomerId", "property"⟩]
    (by decide) (by decide) rfl rfl
  exact ⟨h.1, h.2.1, h.2.2.1⟩

/-- Fixture neighbor fact attached to a previously selected property. -/
def neighborFix : Neighbor :=
  ⟨"outgoing", "https://www.w3.org/2000/01/rdf-schema#label", "Customer",
   "literal", none, none⟩

/-- Fixture state in which a property is already selected and has
non-empty neighbors and links. -/
def staleStateFix : ComponentState :=
  { initialState with
      selectedProperty := some ⟨"https://ex.org/onto#A", "A", "property"⟩
      propertyIri := "https://ex.org/onto#A"
      propertyNeighbors := [neighborFix]
      semanticLinks := [⟨⟨"lk1", "c1", "data_contract", "https://ex.org/onto#A"⟩, some "Contract One"⟩]
      url := ⟨none, some "https://ex.org/onto#A"⟩ }

/-- Counterexample to C4: selecting a new property while another is
selected does NOT discard the prior neighbors and links before the new
fetches resolve; in the state right after the synchronous part of
selectProperty (before either fetch resolves) the old neighbors and
links are still present. -/
theorem C4_counterexample :
    (selectPropertySync staleStateFix ⟨"https://ex.org/onto#B", "B", "property"⟩).propertyNeighbors
      = [neighborFix]
    ∧ (selectPropertySync staleStateFix
        ⟨"https://ex.org/onto#B", "B", "property"⟩).semanticLinks ≠ []
    ∧ [neighborFix] ≠ ([] : List Neighbor) := by
  decide

/-- Claim C4 as amended: at most one property is selected at a time
(the selection is a single optional value, set to the last selected
property); prior neighbors and links are retained, not discarded,
until the new fetches resolve; once selectProperty completes, the
neighbors and links are fully replaced by data derived only from the
new property and the backend responses, independent of the prior state
(last-selection-wins under sequential execution, no merge). -/
theorem C4_last_selection_wins (api : Api) (s : ComponentState) (p : PropertyItem) :
    (selectPropertySync s p).propertyNeighbors = s.propertyNeighbors
    ∧ (selectPropertySync s p).semanticLinks = s.semanticLinks
    ∧ (selectProperty api s p).selectedProperty = some p
    ∧ (selectProperty api s p).propertyNeighbors =
        (match api.getNeighbors p.value with
         | .ok data => data
         | .error _ => [])
    ∧ (selectProperty api s p).semanticLinks =
        (match api.getLinksByIri p.value with
         | .ok links => enrichSemanticLinksWithNames api.getContract links
         | .error _ => []) :=
  ⟨by simp [selectPropertySync, applyUpdateUrl],
   by simp [selectPropertySync, applyUpdateUrl],
   selectProperty_selectedProperty api s p,
   selectProperty_propertyNeighbors api s p,
   selectProperty_semanticLinks api s p⟩

/-- Claim C5: a blank (empty or whitespace-only) search query empties
the result list, closes the dropdown, removes the query URL parameter
and issues no search request. -/
theorem C5_blank_query (api : Api) (s : ComponentState)
    (h : jsTrim s.propertySearchQuery = "") :
    (searchProperties api s).1.propertySearchResults = []
    ∧ (searchProperties api s).1.isPropertyDropdownOpen = false
    ∧ (searchProperties api s).1.url.query = none
    ∧ (searchProperties api s).2 = false := by
  simp [searchProperties, h, applyUpdateUrl, updateUrl]

/-- Witness for C5 at a whitespace-only query. -/
theorem C5_blank_query_witness :
    jsTrim "   " = ""
    ∧ (searchProperties apiRoundtrip
        { initialState with propertySearchQuery := "   " }).1.propertySearchResults = []
    ∧ (searchProperties apiRoundtrip
        { initialState with propertySearchQuery := "   " }).1.isPropertyDropdownOpen = false
    ∧ (searchProperties apiRoundtrip
        { initialState with propertySearchQuery := "   " }).1.url.query = none
    ∧ (searchProperties apiRoundtrip
        { initialState with propertySearchQuery := "   " }).2 = false := by
  have h := C5_blank_query apiRoundtrip
    { initialState with propertySearchQuery := "   " } (by decide)
  exact ⟨by decide, h.1, h.2.1, h.2.2.1, h.2.2.2⟩

/-- Claim C10: when a non-blank search fails, the handler empties the
results and closes the dropdown but leaves the URL untouched, so the
query parameter keeps its prior value; a successful search instead
writes the current query into the URL. -/
theorem C10_search_failure_frame (api api2 : Api) (s : ComponentState)
    (hne : jsTrim s.propertySearchQuery ≠ "")
    (hfail : api.searchProperties s.propertySearchQuery 50 = .error ()) :
    (searchProperties api s).1.propertySearchResults = []
    ∧ (searchProperties api s).1.isPropertyDropdownOpen = false
    ∧ (searchProperties api s).1.url = s.url
    ∧ (searchProperties api s).2 = true
    ∧ ((api2.searchProperties s.propertySearchQuery 50).isOk = true →
        (searchProperties api2 s).1.url.query = some s.propertySearchQuery) := by
  have hq : s.propertySearchQuery ≠ "" := by
    intro e
    apply hne
    rw [e]
    decide
  refine ⟨?_, ?_, ?_, ?_, ?_⟩
  · simp [searchProperties, hne, hfail]
  · simp [searchProperties, hne, hfail]
  · simp [searchProperties, hne, hfail]
  · simp [searchProperties, hne, hfail]
  · intro hok
    cases h2 : api2.searchProperties s.propertySearchQuery 50 with
    | ok data => simp [searchProperties, hne, h2, applyUpdateUrl, updateUrl, hq]
    | error e =>
        rw [h2] at hok
        simp [Except.isOk, Except.toBool] at hok

/-- Fixture oracle whose search always fails. -/
def apiFail : Api where
  searchProperties := fun _ _ => .error ()
  getNeighbors := fun _ => .error ()
  getLinksByIri := fun _ => .error ()
  getContract := fun _ => .error ()
  postSemanticLink := fun _ => .error "boom"

/-- Witness for C10: a failing search leaves the stale query parameter
in the URL; the same state under a succeeding oracle rewrites it. -/
theorem C10_search_failure_frame_witness :
    jsTrim "customer" ≠ ""
    ∧ apiFail.searchProperties "customer" 50 = .error ()
    ∧ (searchProperties apiFail
        { initialState with propertySearchQuery := "customer", url := ⟨some "old", none⟩ }).1.url =
        ⟨some "old", none⟩
    ∧ (searchProperties apiRoundtrip
        { initialState with propertySearchQuery := "customer", url := ⟨some "old", none⟩ }).1.url.query =
        some "customer" := by
  have h := C10_search_failure_frame apiFail apiRoundtrip
    { initialState with propertySearchQuery := "customer", url := ⟨some "old", none⟩ }
    (by decide) rfl
  exact ⟨by decide, rfl, h.2.2.1, h.2.2.2.2 rfl⟩

theorem selectProperty_frame (api : Api) (s : ComponentState) (p : PropertyItem) :
    (selectProperty api s p).assignDialogOpen = s.assignDialogOpen
    ∧ (selectProperty api s p).assignTargetType = s.assignTargetType
    ∧ (selectProperty api s p).selectedContractId = s.selectedContractId
    ∧ (selectProperty api s p).selectedSchemaName = s.selectedSchemaName
    ∧ (selectProperty api s p).selectedPropertyEntityId = s.selectedPropertyEntityId := by
  unfold selectProperty selectPropertyLinks selectPropertyNeighbors
  cases hn : api.getNeighbors p.value <;> cases hl : api.getLinksByIri p.value <;>
    simp [selectPropertySync, applyUpdateUrl]

/-- Claim C6: handleAssign on the contract-property path.  An empty
property entity id aborts with an error toast and no request; the
persisted payload carries the entity id, the entity type and the IRI
of the selected property; on success the dialog closes, the cascade
resets and the selected property is re-selected; on failure the error
message is surfaced and the state is unchanged. -/
theorem C6_handleAssign (api : Api) (s : ComponentState) (sp : PropertyItem)
    (hsel : s.selectedProperty = some sp)
    (htype : s.assignTargetType = "data_contract_property") :
    (s.selectedPropertyEntityId = "" →
       handleAssign api s =
         (s, none,
          [⟨"common:toast.error", "destructive",
            "search:properties.messages.selectPropertyTarget"⟩]))
    ∧ (s.selectedPropertyEntityId ≠ "" →
        ((handleAssign api s).2.1 =
            some ⟨s.selectedPropertyEntityId, "data_contract_property", sp.value⟩
         ∧ (api.postSemanticLink
              ⟨s.selectedPropertyEntityId, "data_contract_property", sp.value⟩ = .ok () →
             ((handleAssign api s).1 =
                selectProperty api
                  { s with assignDialogOpen := false
                           assignTargetType := ""
                           selectedContractId := ""
                           selectedSchemaName := ""
                           selectedPropertyEntityId := "" } sp
              ∧ (handleAssign api s).1.assignDialogOpen = false
              ∧ (handleAssign api s).1.assignTargetType = ""
              ∧ (handleAssign api s).1.selectedContractId = ""
              ∧ (handleAssign api s).1.selectedSchemaName = ""
              ∧ (handleAssign api s).1.selectedPropertyEntityId = ""
              ∧ (handleAssign api s).1.selectedProperty = some sp
              ∧ (handleAssign api s).2.2 =
                  [⟨"common:toast.success", "success",
                    "search:properties.messages.linkedSuccess"⟩]))
         ∧ (∀ msg, api.postSemanticLink
              ⟨s.selectedPropertyEntityId, "data_contract_property", sp.value⟩ = .error msg →
             handleAssign api s =
               (s, some ⟨s.selectedPropertyEntityId, "data_contract_property", sp.value⟩,
                [⟨"common:toast.error", "destructive",
                  jsOr msg "search:properties.messages.assignFailed"⟩])))) := by
  constructor
  · intro hid
    simp [handleAssign, hsel, htype, hid]
  · intro hid
    refine ⟨?_, ?_, ?_⟩
    · cases hpost : api.postSemanticLink
        ⟨s.selectedPropertyEntityId, "data_contract_property", sp.value⟩ <;>
        simp [handleAssign, hsel, htype, hid, hpost]
    · intro hok
      have h1 : (handleAssign api s).1 =
          selectProperty api
            { s with assignDialogOpen := false
                     assignTargetType := ""
                     selectedContractId := ""
                     selectedSchemaName := ""
                     selectedPropertyEntityId := "" } sp := by
        simp [handleAssign, hsel, htype, hid, hok]
      have hframe := selectProperty_frame api
        { s with assignDialogOpen := false
                 assignTargetType := ""
                 selectedContractId := ""
                 selectedSchemaName := ""
                 selectedPropertyEntityId := "" } sp
      refine ⟨h1, ?_, ?_, ?_, ?_, ?_, ?_, ?_⟩
      · rw [h1]; exact hframe.1.trans rfl
      · rw [h1]; exact hframe.2.1.trans rfl
      · rw [h1]; exact hframe.2.2.1.trans rfl
      · rw [h1]; exact hframe.2.2.2.1.trans rfl
      · rw [h1]; exact hframe.2.2.2.2.trans rfl
      · rw [h1]; exact selectProperty_selectedProperty api _ sp
      · simp [handleAssign, hsel, htype, hid, hok]
    · intro msg hmsg
      simp [handleAssign, hsel, htype, hid, hmsg]

/-- Fixture state ready to submit the assignment dialog on the
contract-property path. -/
def assignStateFix : ComponentState :=
  { initialState with
      selectedProperty := some ⟨"https://ex.org/onto#total", "total", "property"⟩
      propertyIri := "https://ex.org/onto#total"
      assignDialogOpen := true
      assignTargetType := "data_contract_property"
      selectedContractId := "c1"
      selectedSchemaName := "orders"
      selectedPropertyEntityId := "c1#orders#total" }

/-- Witness for C6: a concrete successful submit closes the dialog,
resets the cascade and reports the posted payload. -/
theorem C6_handleAssign_witness :
    assignStateFix.selectedProperty = some ⟨"https://ex.org/onto#total", "total", "property"⟩
    ∧ assignStateFix.assignTargetType = "data_contract_property"
    ∧ assignStateFix.selectedPropertyEntityId ≠ ""
    ∧ (handleAssign apiRoundtrip assignStateFix).2.1 =
        some ⟨"c1#orders#total", "data_contract_property", "https://ex.org/onto#total"⟩
    ∧ (handleAssign apiRoundtrip assignStateFix).1.assignDialogOpen = false
    ∧ (handleAssign apiRoundtrip assignStateFix).1.assignTargetType = ""
    ∧ (handleAssign apiRoundtrip assignStateFix).1.selectedPropertyEntityId = "" := by
  have h := (C6_handleAssign apiRoundtrip assignStateFix
    ⟨"https://ex.org/onto#total", "total", "property"⟩ rfl rfl).2 (by decide)
  have hok := h.2.1 rfl
  exact ⟨rfl, rfl, by decide, h.1, hok.2.1, hok.2.2.1, hok.2.2.2.2.2.1⟩

/-- Claim C7: every upstream change of the assignment cascade clears
all downstream selections: a target-type change clears contract,
schema and property; a contract change clears schema and property; a
schema change clears the property. -/
theorem C7_cascade_reset (s : ComponentState) (v : String) :
    (handleAssignTargetTypeChange s v).assignTargetType = v
    ∧ (handleAssignTargetTypeChange s v).selectedContractId = ""
    ∧ (handleAssignTargetTypeChange s v).selectedSchemaName = ""
    ∧ (handleAssignTargetTypeChange s v).selectedPropertyEntityId = ""
    ∧ (onContractChange s v).selectedContractId = v
    ∧ (onContractChange s v).selectedSchemaName = ""
    ∧ (onContractChange s v).selectedPropertyEntityId = ""
    ∧ (onSchemaChange s v).selectedSchemaName = v
    ∧ (onSchemaChange s v).selectedPropertyEntityId = "" := by
  simp [handleAssignTargetTypeChange, onContractChange, onSchemaChange]

/-- Counterexample to C8: clearSearch does not empty the result list;
immediately after clearSearch the prior results are still present. -/
theorem C8_counterexample :
    (clearSearch { initialState with
        propertySearchResults := [⟨"https://ex.org/onto#A", "A", "property"⟩] }).propertySearchResults
      = [⟨"https://ex.org/onto#A", "A", "property"⟩]
    ∧ [(⟨"https://ex.org/onto#A", "A", "property"⟩ : PropertyItem)] ≠ [] := by
  decide

/-- Claim C8 as amended: clearSearch removes both URL parameters and
leaves an empty query, no selected property, empty IRI, empty
neighbors, empty links and a closed dropdown, but keeps the prior
result list; the result list is emptied by the following run of the
debounced search effect on the now-empty query (which issues no
request), after which every listed field is empty. -/
theorem C8_clear_search (api : Api) (s : ComponentState) :
    (clearSearch s).propertySearchQuery = ""
    ∧ (clearSearch s).selectedProperty = none
    ∧ (clearSearch s).propertyIri = ""
    ∧ (clearSearch s).propertyNeighbors = []
    ∧ (clearSearch s).semanticLinks = []
    ∧ (clearSearch s).isPropertyDropdownOpen = false
    ∧ (clearSearch s).url.query = none
    ∧ (clearSearch s).url.iri = none
    ∧ (clearSearch s).propertySearchResults = s.propertySearchResults
    ∧ (searchProperties api (clearSearch s)).1.propertySearchResults = []
    ∧ (searchProperties api (clearSearch s)).2 = false
    ∧ (searchProperties api (clearSearch s)).1.propertySearchQuery = ""
    ∧ (searchProperties api (clearSearch s)).1.selectedProperty = none
    ∧ (searchProperties api (clearSearch s)).1.propertyIri = ""
    ∧ (searchProperties api (clearSearch s)).1.propertyNeighbors = []
    ∧ (searchProperties api (clearSearch s)).1.semanticLinks = []
    ∧ (searchProperties api (clearSearch s)).1.isPropertyDropdownOpen = false
    ∧ (searchProperties api (clearSearch s)).1.url.query = none
    ∧ (searchProperties api (clearSearch s)).1.url.iri = none := by
  have h0 : jsTrim "" = "" := by decide
  simp [clearSearch, searchProperties, applyUpdateUrl, updateUrl, h0]

/-- Claim C9: selectProperty sets the selection and the IRI, uses the
own label when it is distinct from the raw value, else falls back to
the last hash- or slash-delimited segment of the IRI, rewrites the
search box to label, dash, value, closes the dropdown and writes the
value into the iri URL parameter. -/
theorem C9_selectProperty_sync (s : ComponentState) (p : PropertyItem)
    (hp : p.value ≠ "") :
    (selectPropertySync s p).selectedProperty = some p
    ∧ (selectPropertySync s p).propertyIri = p.value
    ∧ (¬ (p.label = "" ∨ jsTrim p.label = p.value) →
        (selectPropertySync s p).propertyLabel = p.label)
    ∧ ((p.label = "" ∨ jsTrim p.label = p.value) →
        (selectPropertySync s p).propertyLabel =
          (if jsIncludes p.value '#' then (splitOnChar '#' p.value).getLastD p.value
           else jsOr ((splitOnChar '/' p.value).getLastD "") p.value))
    ∧ (selectPropertySync s p).propertySearchQuery =
        (selectPropertySync s p).propertyLabel ++ " - " ++ p.value
    ∧ (selectPropertySync s p).isPropertyDropdownOpen = false
    ∧ (selectPropertySync s p).url.iri = some p.value := by
  refine ⟨?_, ?_, ?_, ?_, ?_, ?_, ?_⟩
  · simp [selectPropertySync, applyUpdateUrl]
  · simp [selectPropertySync, applyUpdateUrl]
  · intro h
    simp [selectPropertySync, applyUpdateUrl, displayLabelOf, h]
  · intro h
    simp only [selectPropertySync, applyUpdateUrl, displayLabelOf]
    rw [if_pos h]
  · simp [selectPropertySync, applyUpdateUrl]
  · simp [selectPropertySync, applyUpdateUrl]
  · simp [selectPropertySync, applyUpdateUrl, updateUrl, hp]

/-- Witness for C9 at a property with a distinct label. -/
theorem C9_selectProperty_sync_witness :
    ("https://ex.org/onto#CustomerId" : String) ≠ ""
    ∧ (selectPropertySync initialState
        ⟨"https://ex.org/onto#CustomerId", "CustomerId", "property"⟩).selectedProperty =
        some ⟨"https://ex.org/onto#CustomerId", "CustomerId", "property"⟩
    ∧ (selectPropertySync initialState
        ⟨"https://ex.org/onto#CustomerId", "CustomerId", "property"⟩).propertyLabel = "CustomerId"
    ∧ (selectPropertySync initialState
        ⟨"https://ex.org/onto#CustomerId", "CustomerId", "property"⟩).isPropertyDropdownOpen = false
    ∧ (selectPropertySync initialState
        ⟨"https://ex.org/onto#CustomerId", "CustomerId", "property"⟩).url.iri =
        some "https://ex.org/onto#CustomerId" := by
  have h := C9_selectProperty_sync initialState
    ⟨"https://ex.org/onto#CustomerId", "CustomerId", "property"⟩ (by decide)
  exact ⟨by decide, h.1, h.2.2.1 (by decide), h.2.2.2.2.2.1, h.2.2.2.2.2.2⟩

end PropertiesSearch
